import Mathlib

/-!
Verification development for the router/orchestrator of the
multi-agent-customer-service repository (src/router_agent.py).

The Python source is embedded shallowly: the regular-expression subset used
by the trigger table (literals, `.`, `.*`, character classes, `+`, `*`, `?`,
alternation, one capture group) is given a backtracking matcher with Python
`re.search` semantics (leftmost start, left-biased alternation, greedy
quantifiers); intent classification, routing, coordination and synthesis are
direct functional translations.  Network effects (the HTTP exchange performed
by `A2AClient.send_task`) are modelled by passing the ambient transport result
as an explicit argument.
-/

set_option autoImplicit false

namespace RouterAgent

/-! ### Character classes (Python `re`, ASCII range as exercised by the source) -/

def isSpaceChar (c : Char) : Bool :=
  c = ' ' || c = '\t' || c = '\n' || c = '\r' || c = '\x0b' || c = '\x0c'

def isDigitChar (c : Char) : Bool := c.isDigit

def isWordChar (c : Char) : Bool := c.isAlphanum || c = '_'

def isDotChar (c : Char) : Bool := c != '\n'

def isEmailChar (c : Char) : Bool := isWordChar c || c = '.' || c = '-'

/-! ### Regular expressions

The abstract syntax covers exactly the constructs appearing in
src/router_agent.py: literal characters, single-character classes,
concatenation, alternation, `*` and `+` over a character class, an optional
group `(?:...)?`, and the single capture group `(\d+)`. -/

inductive RE : Type where
  | eps : RE
  | chr : (Char → Bool) → RE
  | cat : RE → RE → RE
  | alt : RE → RE → RE
  | star : (Char → Bool) → RE
  | plus : (Char → Bool) → RE
  | opt : RE → RE
  | grp : RE → RE

/-- A match result: the text of the whole match (group 0) and, if the capture
group participated, its text (group 1). -/
abbrev MatchRes := Option (List Char × Option (List Char))

abbrev Cont := List Char → Option (List Char) → MatchRes

/-- Greedy Kleene star over a one-character class, with backtracking into the
continuation, as Python `re` does. -/
def starMatch (f : Char → Bool) : List Char → Option (List Char) → Cont → MatchRes
  | [], cap, k => k [] cap
  | c :: rest, cap, k =>
      if f c then
        match starMatch f rest cap k with
        | some res => some res
        | none => k (c :: rest) cap
      else k (c :: rest) cap

/-- Backtracking matcher in continuation-passing style.  Alternation is
left-biased and quantifiers are greedy, matching Python `re` search order. -/
def matchRE : RE → List Char → Option (List Char) → Cont → MatchRes
  | RE.eps, s, cap, k => k s cap
  | RE.chr f, s, cap, k =>
      match s with
      | [] => none
      | c :: rest => if f c then k rest cap else none
  | RE.cat a b, s, cap, k => matchRE a s cap (fun rem cap2 => matchRE b rem cap2 k)
  | RE.alt a b, s, cap, k =>
      match matchRE a s cap k with
      | some res => some res
      | none => matchRE b s cap k
  | RE.star f, s, cap, k => starMatch f s cap k
  | RE.plus f, s, cap, k =>
      match s with
      | [] => none
      | c :: rest => if f c then starMatch f rest cap k else none
  | RE.opt a, s, cap, k =>
      match matchRE a s cap k with
      | some res => some res
      | none => k s cap
  | RE.grp a, s, cap, k =>
      matchRE a s cap (fun rem _ => k rem (some (s.take (s.length - rem.length))))

/-- Try to match `r` at the start of `s`, reporting group 0 and group 1. -/
def matchHere (r : RE) (s : List Char) : MatchRes :=
  matchRE r s none (fun rem cap => some (s.take (s.length - rem.length), cap))

/-- `re.search`: leftmost position at which the pattern matches. -/
def reSearch (r : RE) : List Char → MatchRes
  | [] => matchHere r []
  | c :: t =>
      match matchHere r (c :: t) with
      | some res => some res
      | none => reSearch r t

def reTest (r : RE) (s : List Char) : Bool := (reSearch r s).isSome

/-- Literal string pattern. -/
def litRE (w : String) : RE :=
  w.data.foldr (fun c r => RE.cat (RE.chr (fun d => d = c)) r) RE.eps

/-- Words joined by `.*` gaps, e.g. the source pattern `show.*tickets`. -/
def chainRE : List String → RE
  | [] => RE.eps
  | [w] => litRE w
  | w :: ws => RE.cat (litRE w) (RE.cat (RE.star isDotChar) (chainRE ws))

/-! ### Intent trigger table (src/router_agent.py, `analyze_intent`) -/

def intent_patterns : List (String × List RE) :=
  [ ("get_customer_info",
      [litRE "get customer", litRE "customer info",
       RE.cat (litRE "customer id ") (RE.plus isDigitChar),
       litRE "who is customer"]),
    ("view_ticket_history",
      [litRE "ticket history", chainRE ["show", "tickets"],
       litRE "my tickets", chainRE ["past", "tickets"]]),
    ("update_customer",
      [chainRE ["update", "email"], chainRE ["change", "email"],
       chainRE ["update", "info"], chainRE ["change", "phone"]]),
    ("create_ticket",
      [litRE "new ticket", chainRE ["create", "ticket"],
       chainRE ["report", "issue"]]),
    ("billing_issue",
      [litRE "billing", litRE "charge", litRE "invoice", litRE "refund",
       litRE "charged twice"]),
    ("cancellation",
      [litRE "cancel", litRE "cancellation", chainRE ["close", "account"]]),
    ("upgrade",
      [litRE "upgrade", litRE "premium", litRE "better plan"]),
    ("urgent",
      [litRE "urgent", litRE "emergency", litRE "immediately", litRE "asap",
       litRE "down", litRE "broken"]),
    ("report",
      [chainRE ["show", "all"],
       chainRE ["active", "customers", "open", "tickets"],
       litRE "report"]) ]

/-- The intent-detection loop: for each table row, if any trigger matches the
lower-cased query, append the intent (once). -/
def detectIntents (ql : List Char) : List String :=
  intent_patterns.foldl
    (fun acc p =>
      if p.2.any (fun r => reTest r ql) then
        (if p.1 ∈ acc then acc else acc ++ [p.1])
      else acc)
    []

/-! ### Parameter extraction -/

/-- Python pattern `(?:customer\s*(?:id|#)?|id)\s*(\d+)` on the lower-cased
query. -/
def idRE : RE :=
  RE.cat
    (RE.alt
      (RE.cat (litRE "customer")
        (RE.cat (RE.star isSpaceChar) (RE.opt (RE.alt (litRE "id") (litRE "#")))))
      (litRE "id"))
    (RE.cat (RE.star isSpaceChar) (RE.grp (RE.plus isDigitChar)))

/-- Python pattern `[\w\.-]+@[\w\.-]+\.\w+` on the raw query. -/
def emailRE : RE :=
  RE.cat (RE.plus isEmailChar)
    (RE.cat (RE.chr (fun c => c = '@'))
      (RE.cat (RE.plus isEmailChar)
        (RE.cat (RE.chr (fun c => c = '.')) (RE.plus isWordChar))))

/-- Python `int` on a captured digit string. -/
def digitsToNat (ds : List Char) : Nat :=
  ds.foldl (fun acc c => 10 * acc + (c.toNat - 48)) 0

structure Params where
  customer_id : Option Nat
  email : Option String
deriving Repr, DecidableEq

def extractParams (query : String) (ql : List Char) : Params :=
  let cid :=
    match reSearch idRE ql with
    | some (_, some ds) => some (digitsToNat ds)
    | _ => none
  let em :=
    match reSearch emailRE query.data with
    | some (m, _) => some (String.mk m)
    | none => none
  { customer_id := cid, email := em }

/-! ### Routing -/

def data_agent_intents : List String :=
  ["get_customer_info", "view_ticket_history", "update_customer",
   "create_ticket", "report"]

def support_agent_intents : List String :=
  ["billing_issue", "cancellation", "upgrade", "urgent", "general_support"]

structure RouteEntry where
  intent : String
  agent : String
deriving Repr, DecidableEq

/-- The routing loop of `analyze_intent`: per detected intent, append an entry
for the data agent and/or the support agent. -/
def routingOf (intents : List String) : List RouteEntry :=
  intents.foldl
    (fun acc i =>
      let acc1 :=
        if i ∈ data_agent_intents then
          acc ++ [{ intent := i, agent := "customer_data_agent" }]
        else acc
      if i ∈ support_agent_intents then
        acc1 ++ [{ intent := i, agent := "support_agent" }]
      else acc1)
    []

structure AnalyzeResult where
  success : Bool
  original_query : String
  detected_intents : List String
  extracted_parameters : Params
  is_multi_intent : Bool
  routing : List RouteEntry
  priority : String
deriving Repr, DecidableEq

def lowerChars (s : String) : List Char := s.data.map Char.toLower

def analyze_intent (query : String) : AnalyzeResult :=
  let query_lower := lowerChars query
  let raw := detectIntents query_lower
  let params := extractParams query query_lower
  let intents := if raw = [] then raw ++ ["general_support"] else raw
  { success := true
    original_query := query
    detected_intents := intents
    extracted_parameters := params
    is_multi_intent := decide (1 < intents.length)
    routing := routingOf intents
    priority :=
      if "urgent" ∈ intents ∨ "billing_issue" ∈ intents then "HIGH"
      else "NORMAL" }

/-! ### A2A client (`A2AClient.send_task`)

The JSON envelope is modelled by a small JSON value type; the network
exchange of the POST is modelled by an explicit `HttpResult` argument: either
the server replied with a status code and body, or the client raised
(connection failure, timeout). -/

inductive JVal : Type where
  | str : String → JVal
  | num : Nat → JVal
  | arr : List JVal → JVal
  | obj : List (String × JVal) → JVal

def jlookup (key : String) : JVal → Option JVal
  | JVal.obj fields =>
      match fields.find? (fun p => p.1 = key) with
      | some p => some p.2
      | none => none
  | _ => none

/-- The request envelope built by `A2AClient.send_task`. -/
def send_task_request (message task_id : String) : JVal :=
  JVal.obj
    [ ("jsonrpc", JVal.str "2.0"),
      ("method", JVal.str "tasks/send"),
      ("params", JVal.obj
        [ ("id", JVal.str task_id),
          ("message", JVal.obj
            [ ("role", JVal.str "user"),
              ("parts", JVal.arr [JVal.obj [("text", JVal.str message)]]) ]) ]),
      ("id", JVal.str task_id) ]

/-- Ambient behaviour of one HTTP POST: a reply with a status code, parsed
JSON body and raw text body, or a raised exception (timeout, connection
error). -/
inductive HttpResult : Type where
  | status : Nat → JVal → String → HttpResult
  | raise : String → HttpResult

/-- What `send_task` does with the POST result: a normal return value, or a
propagated exception. -/
inductive SendOutcome : Type where
  | returns : JVal → SendOutcome
  | raises : String → SendOutcome

/-- `A2AClient.send_task` after the POST: 200 returns the parsed body; any
other status returns (does not raise) an error dictionary; a transport
exception propagates. -/
def send_task (h : HttpResult) : SendOutcome :=
  match h with
  | HttpResult.status code body text =>
      if code = 200 then SendOutcome.returns body
      else
        SendOutcome.returns (JVal.obj
          [ ("error", JVal.str ("Request failed: " ++ toString code)),
            ("body", JVal.str text) ])
  | HttpResult.raise e => SendOutcome.raises e

/-- The per-service outcome dictionary built by the `route_to_*` wrappers. -/
structure Outcome where
  success : Bool
  agent : String
  response : Option JVal
  error : Option String

def routeWrap (name : String) (s : SendOutcome) : Outcome :=
  match s with
  | SendOutcome.returns v =>
      { success := true, agent := name, response := some v, error := none }
  | SendOutcome.raises e =>
      { success := false, agent := name, response := none, error := some e }

/-- `route_to_customer_data_agent`: try/except around `send_task` on the
customer-data client.  `request` is the text forwarded downstream; `h` is the
ambient transport behaviour of that call. -/
def route_to_customer_data_agent (request : String) (h : HttpResult) : Outcome :=
  routeWrap "customer_data_agent" (send_task h)

/-- `route_to_support_agent`: try/except around `send_task` on the support
client. -/
def route_to_support_agent (request : String) (h : HttpResult) : Outcome :=
  routeWrap "support_agent" (send_task h)

/-! ### Coordinator (`coordinate_multi_agent_request`) -/

/-- Python `repr` of a string from the intent vocabulary (single-quoted; no
escaping arises for these strings). -/
def pyStrRepr (s : String) : String := "\x27" ++ s ++ "\x27"

/-- Python `str` of a list of strings, as interpolated by the f-strings in
`coordinate_multi_agent_request`. -/
def pyListRepr (l : List String) : String :=
  "[" ++ String.intercalate ", " (l.map pyStrRepr) ++ "]"

/-- Python truthiness of `params.get("customer_id")`. -/
def cidTruthy : Option Nat → Bool
  | some n => n ≠ 0
  | none => false

/-- Python truthiness of `params.get("email")`. -/
def emailTruthy : Option String → Bool
  | some e => e ≠ ""
  | none => false

def dataRequestOf (query : String) (data_intents : List String) (params : Params) : String :=
  "Handle these intents: " ++ pyListRepr data_intents ++ ". "
    ++ (match params.customer_id with
        | some n => if n ≠ 0 then "Customer ID: " ++ toString n ++ ". " else ""
        | none => "")
    ++ (match params.email with
        | some e => if e ≠ "" then "New email: " ++ e ++ ". " else ""
        | none => "")
    ++ "Original query: " ++ query

def supportRequestOf (query : String) (support_intents : List String) : String :=
  "Handle these intents: " ++ pyListRepr support_intents ++ ". Original query: " ++ query

structure CoordResult where
  success : Bool
  coordination_type : String
  intents_processed : List String
  agents_called : Nat
  results : List Outcome

/-- `coordinate_multi_agent_request`: filter the intents into the two groups,
call the customer-data agent when its group is non-empty, then the support
agent when its group is non-empty, collecting both outcomes.  `hData` and
`hSupport` are the ambient transport behaviours of the two downstream calls. -/
def coordinate_multi_agent_request (query : String) (intents : List String)
    (params : Params) (hData hSupport : HttpResult) : CoordResult :=
  let data_intents := intents.filter (fun i => i ∈ data_agent_intents)
  let support_intents := intents.filter (fun i => i ∈ support_agent_intents)
  let results : List Outcome :=
    (if data_intents ≠ [] then
        [route_to_customer_data_agent (dataRequestOf query data_intents params) hData]
      else [])
    ++
    (if support_intents ≠ [] then
        [route_to_support_agent (supportRequestOf query support_intents) hSupport]
      else [])
  { success := true
    coordination_type := "multi_agent"
    intents_processed := intents
    agents_called := results.length
    results := results }

/-! ### Synthesis (`synthesize_response`) -/

structure SynthResult where
  success : Bool
  original_query : String
  agents_consulted : Nat
  successful_responses : Nat
  failed_responses : Nat
  summary : String
  results : List Outcome

def synthesize_response (agent_results : List Outcome) (original_query : String) : SynthResult :=
  let successful_results := agent_results.filter (fun r => r.success)
  let failed_results := agent_results.filter (fun r => !r.success)
  let summary_parts := successful_results.map (fun r => r.agent ++ ": processed successfully")
  { success := decide (failed_results.length = 0)
    original_query := original_query
    agents_consulted := agent_results.length
    successful_responses := successful_results.length
    failed_responses := failed_results.length
    summary :=
      if summary_parts ≠ [] then String.intercalate " | " summary_parts
      else "No agents responded"
    results := agent_results }

/-! ### Helper lemmas -/

/-- The routing entries contributed by one intent: one entry per group the
intent belongs to (data first, as in the source loop body). -/
def routeEntriesOf (i : String) : List RouteEntry :=
  (if i ∈ data_agent_intents then
      [{ intent := i, agent := "customer_data_agent" }]
    else [])
  ++ (if i ∈ support_agent_intents then
      [{ intent := i, agent := "support_agent" }]
    else [])

theorem foldl_routing (l : List String) : ∀ acc : List RouteEntry,
    l.foldl
      (fun acc i =>
        let acc1 :=
          if i ∈ data_agent_intents then
            acc ++ [{ intent := i, agent := "customer_data_agent" }]
          else acc
        if i ∈ support_agent_intents then
          acc1 ++ [{ intent := i, agent := "support_agent" }]
        else acc1)
      acc
      = acc ++ l.flatMap routeEntriesOf := by
  induction l with
  | nil => intro acc; simp
  | cons i t ih =>
      intro acc
      rw [List.foldl_cons, ih, List.flatMap_cons]
      by_cases h1 : i ∈ data_agent_intents <;> by_cases h2 : i ∈ support_agent_intents <;>
        simp [routeEntriesOf, h1, h2, List.append_assoc]

theorem routingOf_eq_flatMap (l : List String) :
    routingOf l = l.flatMap routeEntriesOf := by
  unfold routingOf
  rw [foldl_routing]
  simp

theorem mem_routeEntriesOf {e : RouteEntry} {i : String} :
    e ∈ routeEntriesOf i
      ↔ (i ∈ data_agent_intents ∧ e = { intent := i, agent := "customer_data_agent" })
        ∨ (i ∈ support_agent_intents ∧ e = { intent := i, agent := "support_agent" }) := by
  unfold routeEntriesOf
  by_cases h1 : i ∈ data_agent_intents <;> by_cases h2 : i ∈ support_agent_intents <;>
    simp [h1, h2]

theorem routeEntriesOf_ne_nil {i : String}
    (h : i ∈ data_agent_intents ∨ i ∈ support_agent_intents) :
    routeEntriesOf i ≠ [] := by
  unfold routeEntriesOf
  rcases h with h | h
  · simp [h, List.append_eq_nil]
  · simp [h, List.append_eq_nil]

theorem routeWrap_agent (n : String) (s : SendOutcome) : (routeWrap n s).agent = n := by
  cases s <;> rfl

theorem mem_detect_aux (ql : List Char) :
    ∀ (ps : List (String × List RE)) (acc : List String) (x : String),
      x ∈ ps.foldl
            (fun acc p =>
              if p.2.any (fun r => reTest r ql) then
                (if p.1 ∈ acc then acc else acc ++ [p.1])
              else acc)
            acc
      → x ∈ acc ∨ ∃ p ∈ ps, x = p.1 := by
  intro ps
  induction ps with
  | nil => intro acc x h; exact Or.inl h
  | cons p t ih =>
      intro acc x h
      rw [List.foldl_cons] at h
      rcases ih _ x h with h1 | ⟨q, hq, rfl⟩
      · split at h1
        · split at h1
          · exact Or.inl h1
          · rcases List.mem_append.mp h1 with h2 | h2
            · exact Or.inl h2
            · exact Or.inr ⟨p, List.mem_cons_self _ _, (List.mem_singleton.mp h2)⟩
        · exact Or.inl h1
      · exact Or.inr ⟨q, List.mem_cons_of_mem _ hq, rfl⟩

theorem mem_detectIntents {ql : List Char} {x : String} (h : x ∈ detectIntents ql) :
    ∃ p ∈ intent_patterns, x = p.1 := by
  unfold detectIntents at h
  rcases mem_detect_aux ql intent_patterns [] x h with h1 | h1
  · exact absurd h1 (List.not_mem_nil x)
  · exact h1

theorem intentKeys_grouped :
    ∀ p ∈ intent_patterns, p.1 ∈ data_agent_intents ∨ p.1 ∈ support_agent_intents := by
  intro p hp
  simp only [intent_patterns, List.mem_cons, List.not_mem_nil, or_false] at hp
  rcases hp with rfl | rfl | rfl | rfl | rfl | rfl | rfl | rfl | rfl
  · left; decide
  · left; decide
  · left; decide
  · left; decide
  · right; decide
  · right; decide
  · right; decide
  · right; decide
  · left; decide

theorem detect_nil_aux (ql : List Char) :
    ∀ (ps : List (String × List RE)) (acc : List String),
      (∀ p ∈ ps, ∀ r ∈ p.2, reTest r ql = false) →
      ps.foldl
          (fun acc p =>
            if p.2.any (fun r => reTest r ql) then
              (if p.1 ∈ acc then acc else acc ++ [p.1])
            else acc)
          acc
        = acc := by
  intro ps
  induction ps with
  | nil => intro acc _; rfl
  | cons p t ih =>
      intro acc h
      rw [List.foldl_cons]
      have hp : p.2.any (fun r => reTest r ql) = false :=
        List.any_eq_false.mpr (by
          intro r hr
          simp [h p (List.mem_cons_self _ _) r hr])
      rw [hp]
      simp only [Bool.false_eq_true, if_false]
      exact ih acc (fun q hq => h q (List.mem_cons_of_mem _ hq))

theorem detectIntents_eq_nil_of {ql : List Char}
    (h : ∀ p ∈ intent_patterns, ∀ r ∈ p.2, reTest r ql = false) :
    detectIntents ql = [] :=
  detect_nil_aux ql intent_patterns [] h

theorem detected_intents_ne_nil (s : String) :
    (analyze_intent s).detected_intents ≠ [] := by
  show (if detectIntents (lowerChars s) = []
      then detectIntents (lowerChars s) ++ ["general_support"]
      else detectIntents (lowerChars s)) ≠ []
  split
  · simp
  · assumption

theorem detected_intents_grouped (s : String) :
    ∀ i ∈ (analyze_intent s).detected_intents,
      i ∈ data_agent_intents ∨ i ∈ support_agent_intents := by
  intro i hi
  have hi2 : i ∈ (if detectIntents (lowerChars s) = []
      then detectIntents (lowerChars s) ++ ["general_support"]
      else detectIntents (lowerChars s)) := hi
  split at hi2
  · rename_i hnil
    rw [hnil] at hi2
    simp only [List.nil_append, List.mem_singleton] at hi2
    subst hi2
    right; decide
  · obtain ⟨p, hp, rfl⟩ := mem_detectIntents hi2
    exact intentKeys_grouped p hp

/-- Modelled from the spec wording of §4.2: a RoutingDecision mentions more
than one distinct downstream service identifier. -/
def spec_multi_target (r : List RouteEntry) : Bool :=
  r.any (fun e1 => r.any (fun e2 => e1.agent ≠ e2.agent))

theorem multi_target_iff (l : List String) :
    spec_multi_target (routingOf l) = true
      ↔ (∃ i ∈ l, i ∈ data_agent_intents) ∧ (∃ j ∈ l, j ∈ support_agent_intents) := by
  rw [routingOf_eq_flatMap]
  constructor
  · intro h
    simp only [spec_multi_target, List.any_eq_true] at h
    obtain ⟨e1, he1, e2, he2, hne⟩ := h
    rw [List.mem_flatMap] at he1 he2
    obtain ⟨i1, hi1, hei1⟩ := he1
    obtain ⟨i2, hi2, hei2⟩ := he2
    rw [mem_routeEntriesOf] at hei1 hei2
    rcases hei1 with ⟨hd1, rfl⟩ | ⟨hs1, rfl⟩ <;> rcases hei2 with ⟨hd2, rfl⟩ | ⟨hs2, rfl⟩
    · simp at hne
    · exact ⟨⟨i1, hi1, hd1⟩, ⟨i2, hi2, hs2⟩⟩
    · exact ⟨⟨i2, hi2, hd2⟩, ⟨i1, hi1, hs1⟩⟩
    · simp at hne
  · rintro ⟨⟨i, hi, hid⟩, ⟨j, hj, hjs⟩⟩
    simp only [spec_multi_target, List.any_eq_true]
    refine ⟨{ intent := i, agent := "customer_data_agent" }, ?_,
            { intent := j, agent := "support_agent" }, ?_, by simp⟩
    · exact List.mem_flatMap.mpr ⟨i, hi, mem_routeEntriesOf.mpr (Or.inl ⟨hid, rfl⟩)⟩
    · exact List.mem_flatMap.mpr ⟨j, hj, mem_routeEntriesOf.mpr (Or.inr ⟨hjs, rfl⟩)⟩

/-! ### Claim theorems -/

/-- Claim C1, counterexample: a downstream reply with HTTP status 500 (a
non-success status) produces an outcome with `success = true`, not the
failure descriptor the claim requires. -/
theorem claim_C1_counterexample :
    (route_to_customer_data_agent "lookup"
        (HttpResult.status 500 (JVal.obj []) "Internal Server Error")).success = true
      ∧ (500 : Nat) ≠ 200 :=
  ⟨rfl, by decide⟩

/-- Claim C1 (amended): when the downstream call raises (timeout, connection
error), both `route_to_customer_data_agent` and `route_to_support_agent`
record an outcome with `success = false` carrying the raw error string, and
no exception propagates; when the call returns a non-200 status, `send_task`
returns (does not raise) an error dictionary with the raw error, and the
recorded outcome carries it in its `response` field with `success = true`. -/
theorem claim_C1_amended (req e : String) (code : Nat) (j : JVal) (t : String)
    (h : code ≠ 200) :
    (route_to_customer_data_agent req (HttpResult.raise e)).success = false
    ∧ (route_to_customer_data_agent req (HttpResult.raise e)).error = some e
    ∧ (route_to_support_agent req (HttpResult.raise e)).success = false
    ∧ (route_to_support_agent req (HttpResult.raise e)).error = some e
    ∧ (route_to_customer_data_agent req (HttpResult.status code j t)).success = true
    ∧ (route_to_customer_data_agent req (HttpResult.status code j t)).response
        = some (JVal.obj
            [ ("error", JVal.str ("Request failed: " ++ toString code)),
              ("body", JVal.str t) ]) := by
  refine ⟨rfl, rfl, rfl, rfl, ?_, ?_⟩ <;>
    simp [route_to_customer_data_agent, routeWrap, send_task, h]

/-- Claim C1 witness: the amended statement at a concrete timeout and a
concrete 503 reply. -/
theorem claim_C1_amended_witness :
    (route_to_customer_data_agent "lookup" (HttpResult.raise "ReadTimeout")).success = false
    ∧ (route_to_customer_data_agent "lookup" (HttpResult.raise "ReadTimeout")).error
        = some "ReadTimeout"
    ∧ (route_to_support_agent "lookup" (HttpResult.raise "ReadTimeout")).success = false
    ∧ (route_to_support_agent "lookup" (HttpResult.raise "ReadTimeout")).error
        = some "ReadTimeout"
    ∧ (route_to_customer_data_agent "lookup"
        (HttpResult.status 503 (JVal.obj []) "Service Unavailable")).success = true
    ∧ (route_to_customer_data_agent "lookup"
        (HttpResult.status 503 (JVal.obj []) "Service Unavailable")).response
        = some (JVal.obj
            [ ("error", JVal.str ("Request failed: " ++ toString (503 : Nat))),
              ("body", JVal.str "Service Unavailable") ]) :=
  claim_C1_amended "lookup" "ReadTimeout" 503 (JVal.obj []) "Service Unavailable" (by decide)

/-- Claim C2, counterexample: the query about a double charge detects two
intents (billing_issue, urgent), so `is_multi_intent` is true, yet both
routing entries name the same downstream service — only one service
identifier occurs, and only the support group is touched. -/
theorem claim_C2_counterexample :
    (analyze_intent "I\x27ve been charged twice, please refund immediately!").is_multi_intent
        = true
    ∧ spec_multi_target
        (analyze_intent "I\x27ve been charged twice, please refund immediately!").routing
        = false := by
  constructor
  · decide
  · decide

/-- Claim C2 (amended): `is_multi_intent` is true exactly when more than one
intent is detected (not when both groups are touched); separately, the
routing decision mentions more than one distinct downstream service
identifier exactly when the detected intents touch both the data group and
the support group. -/
theorem claim_C2_amended (s : String) :
    ((analyze_intent s).is_multi_intent = true
        ↔ 1 < (analyze_intent s).detected_intents.length)
    ∧ (spec_multi_target (analyze_intent s).routing = true
        ↔ (∃ i ∈ (analyze_intent s).detected_intents, i ∈ data_agent_intents)
            ∧ (∃ j ∈ (analyze_intent s).detected_intents, j ∈ support_agent_intents)) := by
  constructor
  · exact decide_eq_true_iff
  · exact multi_target_iff (analyze_intent s).detected_intents

/-- Claim C3: `analyze_intent` is total and always returns a non-empty
intent list; when no trigger pattern of the table matches the lower-cased
query, the list is exactly `["general_support"]`. -/
theorem claim_C3 (s : String) :
    (analyze_intent s).detected_intents ≠ []
    ∧ ((∀ p ∈ intent_patterns, ∀ r ∈ p.2, reTest r (lowerChars s) = false)
        → (analyze_intent s).detected_intents = ["general_support"]) := by
  refine ⟨detected_intents_ne_nil s, fun h => ?_⟩
  have h0 : detectIntents (lowerChars s) = [] := detectIntents_eq_nil_of h
  show (if detectIntents (lowerChars s) = []
      then detectIntents (lowerChars s) ++ ["general_support"]
      else detectIntents (lowerChars s)) = ["general_support"]
  rw [h0]
  rfl

/-- Claim C3 witness: no trigger matches "hello", and the detected intents
are exactly the default. -/
theorem claim_C3_witness :
    (analyze_intent "hello").detected_intents ≠ []
    ∧ (analyze_intent "hello").detected_intents = ["general_support"] :=
  ⟨(claim_C3 "hello").1, (claim_C3 "hello").2 (by decide)⟩

/-- Claim C4: the coordinator produces exactly one outcome per targeted
agent — its results carry the agent labels in the fixed order
[customer_data_agent, support_agent] — and when both groups are targeted the
results are exactly the data-agent outcome followed by the support-agent
outcome, for every transport behaviour of the data call (in particular a
failing data call does not suppress the support call). -/
theorem claim_C4 (query : String) (intents : List String) (params : Params)
    (hData hSupport : HttpResult) :
    ((coordinate_multi_agent_request query intents params hData hSupport).results.map
        (fun o => o.agent)
      = (if intents.filter (fun i => i ∈ data_agent_intents) = [] then []
          else ["customer_data_agent"])
        ++ (if intents.filter (fun i => i ∈ support_agent_intents) = [] then []
          else ["support_agent"]))
    ∧ (intents.filter (fun i => i ∈ data_agent_intents) ≠ []
        → intents.filter (fun i => i ∈ support_agent_intents) ≠ []
        → (coordinate_multi_agent_request query intents params hData hSupport).results
          = [route_to_customer_data_agent
               (dataRequestOf query (intents.filter (fun i => i ∈ data_agent_intents)) params)
               hData,
             route_to_support_agent
               (supportRequestOf query (intents.filter (fun i => i ∈ support_agent_intents)))
               hSupport]) := by
  constructor
  · by_cases hd : intents.filter (fun i => i ∈ data_agent_intents) = [] <;>
      by_cases hs : intents.filter (fun i => i ∈ support_agent_intents) = [] <;>
        simp [coordinate_multi_agent_request, hd, hs,
          route_to_customer_data_agent, route_to_support_agent, routeWrap_agent]
  · intro hd hs
    simp [coordinate_multi_agent_request, hd, hs]

/-- Claim C4 witness: both groups targeted, the data call times out, and the
results are still the two outcomes in order. -/
theorem claim_C4_witness :
    (coordinate_multi_agent_request "q" ["get_customer_info", "billing_issue"]
        { customer_id := none, email := none }
        (HttpResult.raise "timeout") (HttpResult.status 200 (JVal.obj []) "ok")).results
      = [route_to_customer_data_agent
           (dataRequestOf "q"
             ((["get_customer_info", "billing_issue"] : List String).filter
               (fun i => i ∈ data_agent_intents))
             { customer_id := none, email := none })
           (HttpResult.raise "timeout"),
         route_to_support_agent
           (supportRequestOf "q"
             ((["get_customer_info", "billing_issue"] : List String).filter
               (fun i => i ∈ support_agent_intents)))
           (HttpResult.status 200 (JVal.obj []) "ok")] :=
  (claim_C4 "q" ["get_customer_info", "billing_issue"]
      { customer_id := none, email := none }
      (HttpResult.raise "timeout") (HttpResult.status 200 (JVal.obj []) "ok")).2
    (by decide) (by decide)

/-- Claim C5: `synthesize_response` is total, its success flag equals the
conjunction of the success flags of all agent results, and on the empty list
it reports success with the "No agents responded" summary and zero agents
consulted. -/
theorem claim_C5 (agent_results : List Outcome) (q : String) :
    (synthesize_response agent_results q).success
        = agent_results.all (fun r => r.success)
    ∧ (synthesize_response [] q).success = true
    ∧ (synthesize_response [] q).summary = "No agents responded"
    ∧ (synthesize_response [] q).agents_consulted = 0 := by
  refine ⟨?_, rfl, rfl, rfl⟩
  have key : ∀ l : List Outcome,
      decide ((l.filter (fun r => !r.success)).length = 0) = l.all (fun r => r.success) := by
    intro l
    induction l with
    | nil => rfl
    | cons r t ih =>
        cases hr : r.success
        · simp only [List.filter_cons, List.all_cons, hr, Bool.not_false, if_true,
            List.length_cons, Bool.false_and]
          simp
        · simp only [List.filter_cons, List.all_cons, hr, Bool.not_true, if_false,
            Bool.true_and]
          exact ih
  exact key agent_results

/-- Claim C7: the task envelope built by `send_task` is a JSON-RPC 2.0
object with method "tasks/send"; its params.id equals the top-level id, and
params.message has role "user" and a single-element parts list wrapping the
message text. -/
theorem claim_C7 (m tid : String) :
    jlookup "jsonrpc" (send_task_request m tid) = some (JVal.str "2.0")
    ∧ jlookup "method" (send_task_request m tid) = some (JVal.str "tasks/send")
    ∧ ((jlookup "params" (send_task_request m tid)).bind (jlookup "id")
        = jlookup "id" (send_task_request m tid))
    ∧ ((jlookup "params" (send_task_request m tid)).bind (jlookup "id")
        = some (JVal.str tid))
    ∧ (((jlookup "params" (send_task_request m tid)).bind (jlookup "message")).bind
          (jlookup "role")
        = some (JVal.str "user"))
    ∧ (((jlookup "params" (send_task_request m tid)).bind (jlookup "message")).bind
          (jlookup "parts")
        = some (JVal.arr [JVal.obj [("text", JVal.str m)]])) :=
  ⟨rfl, rfl, rfl, rfl, rfl, rfl⟩

/-- Claim C8: the double-charge query detects both billing_issue and urgent,
routes only to the support agent, and gets priority HIGH. -/
theorem claim_C8 :
    (analyze_intent "I\x27ve been charged twice, please refund immediately!").detected_intents
        = ["billing_issue", "urgent"]
    ∧ (analyze_intent "I\x27ve been charged twice, please refund immediately!").routing
        = [{ intent := "billing_issue", agent := "support_agent" },
           { intent := "urgent", agent := "support_agent" }]
    ∧ (analyze_intent "I\x27ve been charged twice, please refund immediately!").priority
        = "HIGH" := by
  refine ⟨by decide, by decide, by decide⟩

/-- Claim C9: the query "Get customer information for ID 5" detects exactly
get_customer_info, extracts customer_id = 5, routes only to the customer
data agent, and the coordinator issues a single outcome, labelled with that
agent, for any transport behaviour. -/
theorem claim_C9 (hData hSupport : HttpResult) :
    (analyze_intent "Get customer information for ID 5").detected_intents
        = ["get_customer_info"]
    ∧ (analyze_intent "Get customer information for ID 5").extracted_parameters.customer_id
        = some 5
    ∧ (analyze_intent "Get customer information for ID 5").routing
        = [{ intent := "get_customer_info", agent := "customer_data_agent" }]
    ∧ ((coordinate_multi_agent_request "Get customer information for ID 5"
          (analyze_intent "Get customer information for ID 5").detected_intents
          (analyze_intent "Get customer information for ID 5").extracted_parameters
          hData hSupport).results.map (fun o => o.agent)
        = ["customer_data_agent"]) := by
  have hd : (analyze_intent "Get customer information for ID 5").detected_intents
      = ["get_customer_info"] := by decide
  refine ⟨hd, by decide, by decide, ?_⟩
  rw [hd]
  have h1 : (["get_customer_info"] : List String).filter
      (fun i => i ∈ data_agent_intents) = ["get_customer_info"] := by decide
  have h2 : (["get_customer_info"] : List String).filter
      (fun i => i ∈ support_agent_intents) = [] := by decide
  simp [coordinate_multi_agent_request, h1, h2,
    route_to_customer_data_agent, routeWrap_agent]

/-- Claim C10: for every query, the routing list is non-empty, every routing
entry names one of the two downstream agents, and every detected intent
belongs to at least one of the two groups. -/
theorem claim_C10 (s : String) :
    (analyze_intent s).routing ≠ []
    ∧ (∀ e ∈ (analyze_intent s).routing,
        e.agent = "customer_data_agent" ∨ e.agent = "support_agent")
    ∧ (∀ i ∈ (analyze_intent s).detected_intents,
        i ∈ data_agent_intents ∨ i ∈ support_agent_intents) := by
  have hroute : (analyze_intent s).routing
      = routingOf (analyze_intent s).detected_intents := rfl
  refine ⟨?_, ?_, detected_intents_grouped s⟩
  · rw [hroute, routingOf_eq_flatMap]
    cases hl : (analyze_intent s).detected_intents with
    | nil => exact absurd hl (detected_intents_ne_nil s)
    | cons i t =>
        rw [List.flatMap_cons]
        intro hcontra
        have hne : routeEntriesOf i ≠ [] :=
          routeEntriesOf_ne_nil
            (detected_intents_grouped s i (hl ▸ List.mem_cons_self i t))
        exact hne (List.append_eq_nil.mp hcontra).1
  · intro e he
    rw [hroute, routingOf_eq_flatMap] at he
    obtain ⟨i, _, hei⟩ := List.mem_flatMap.mp he
    rcases mem_routeEntriesOf.mp hei with ⟨_, rfl⟩ | ⟨_, rfl⟩
    · exact Or.inl rfl
    · exact Or.inr rfl

/-- Claim C10 witness: the default query routes to the support agent; the
per-entry and per-intent facts hold at the concrete members. -/
theorem claim_C10_witness :
    (analyze_intent "hello").routing ≠ []
    ∧ (({ intent := "general_support", agent := "support_agent" } : RouteEntry).agent
          = "customer_data_agent"
        ∨ ({ intent := "general_support", agent := "support_agent" } : RouteEntry).agent
          = "support_agent")
    ∧ ("general_support" ∈ data_agent_intents ∨ "general_support" ∈ support_agent_intents) :=
  ⟨(claim_C10 "hello").1,
   (claim_C10 "hello").2.1 { intent := "general_support", agent := "support_agent" }
     (by decide),
   (claim_C10 "hello").2.2 "general_support" (by decide)⟩

end RouterAgent
